import Mathlib

/-!
Formal model of the Pulsar X2V2 Mini configuration tool (pulsar.py).

The Python source is shallowly embedded: bytes are natural numbers
(values 0 to 255), frames are lists of naturals, fallible code returns
Except, and the stateful device controller is modelled by explicit
state passing over a transport state (a list of frames still to be
read, and a list of frames written so far).
-/

namespace Pulsar

/-- Model of checksum(*values) in pulsar.py: ctypes.c_uint8(0x55 - sum(values)).
The Python subtraction is over unbounded integers and c_uint8 reduces the
result modulo 256 to a nonnegative value, which Int.emod with a positive
modulus also does. -/
def checksum (values : List Nat) : Nat :=
  (((0x55 : Int) - (values.sum : Int)) % 256).toNat

/-- Python build_payload has 14 keyword byte parameters index02..index15, each
defaulting to 0x00. A call supplying the first k of them positionally is
modelled by a list of length k, padded with zeros to 14 entries. -/
def pad14 (params : List Nat) : List Nat :=
  params ++ List.replicate (14 - params.length) 0

/-- Model of build_payload(command, index02=..., ..., index15=...): the
16-byte body [0x08, command, index02..index15] followed by its checksum.
The final bytearray(...) of the source raises ValueError when any entry
exceeds 255; that byte-range failure is not modelled, so theorems evaluate
this function only on byte-valued arguments, where it is exact. -/
def build_payload (command : Nat) (params : List Nat) : List Nat :=
  let body := 0x08 :: command :: pad14 params
  body ++ [checksum body]

/-- Errors raised by dpi_int_to_raw / dpi_raw_to_int. The source raises
ValueError in every case; the names follow the failure condition (range
check, multiple-of-50 check, and the structural checks of the decoder). -/
inductive DpiError
  | outOfRange
  | notAMultiple
  | inconsistent
deriving DecidableEq

/-- Model of dpi_int_to_raw(dpi): range check, multiple-of-50 check, then
quo = dpi / 50, q = quo - 1, (factor12800, factor50) = divmod(q, 256),
producing [factor50, factor50, factor12800 << 2 | factor12800 << 6]. -/
def dpi_int_to_raw (dpi : Nat) : Except DpiError (List Nat) :=
  if ¬(50 ≤ dpi ∧ dpi ≤ 26000) then .error .outOfRange
  else if dpi % 50 ≠ 0 then .error .notAMultiple
  else
    let factor12800 := (dpi / 50 - 1) / 256
    let factor50 := (dpi / 50 - 1) % 256
    .ok [factor50, factor50, factor12800 <<< 2 ||| factor12800 <<< 6]

/-- Model of dpi_raw_to_int(raw): requires a 3-byte input whose first two
bytes agree and whose third byte packs one 2-bit factor in both nibbles
(bits 2-3 and 6-7); returns (raw[1]+1)*50 + (nibble >> 2)*12800. -/
def dpi_raw_to_int (raw : List Nat) : Except DpiError Nat :=
  if raw.length ≠ 3 then .error .inconsistent
  else if raw.getD 0 0 ≠ raw.getD 1 0 then .error .inconsistent
  else
    let factor50 := raw.getD 1 0 + 1
    let nib1 := raw.getD 2 0 &&& 0b1111
    let nib2 := raw.getD 2 0 >>> 4
    if nib1 ≠ nib2 then .error .inconsistent
    else if nib1 ≠ (nib1 &&& 0b1100) then .error .inconsistent
    else .ok (factor50 * 50 + (nib1 >>> 2) * 12800)
/-- The closed set of payload variants the generic parser from_payload can
produce. Profiles and device-event kinds are bytes. -/
inductive ParsedPayload
  | restorePayload
  | requestActiveProfile
  | currentActiveProfile (profile : Nat)
  | setActiveProfile (profile : Nat)
  | deviceEvent (kind : Nat)
  | requestPowerDetails
deriving DecidableEq

/-- Canonical frame bytes of each payload variant, as produced by the
payload properties of the corresponding Python classes. -/
def serializePayload : ParsedPayload → List Nat
  | .restorePayload => build_payload 0x09 []
  | .requestActiveProfile => build_payload 0x0e []
  | .currentActiveProfile p => build_payload 0x0e [0, 0, 0, 0x01, p]
  | .setActiveProfile p => build_payload 0x0f [0, 0, 0, 0x01, p]
  | .deviceEvent k => build_payload 0x0a [0, 0, 0, 0x0a, k]
  | .requestPowerDetails => build_payload 0x04 []

/-- Failure modes of from_payload. The source raises AssertionError for the
length, checksum and round-trip checks, KeyError for an unknown device
event kind and NotImplementedError elsewhere; the names follow the spec's
error taxonomy. -/
inductive ParseError
  | malformedFrame
  | checksumMismatch
  | notImplemented
  | unknownDeviceEvent
  | unexpectedResponse
  | unknownCommand
deriving DecidableEq

/-- Dispatch of from_payload on the command byte, after the length and
checksum checks have passed. Branch order follows the source. Each
parameterised variant rebuilds its canonical bytes and requires exact
equality with the input, as the Python from_payload classmethods assert. -/
def dispatch_command (payload : List Nat) : Except ParseError ParsedPayload :=
  let command := payload.getD 1 0
  if command = 0x04 then
    if payload = serializePayload .requestPowerDetails then .ok .requestPowerDetails
    else .error .notImplemented
  else if command = 0x09 then .ok .restorePayload
  else if command = 0x03 then .error .notImplemented
  else if command = 0x0a then
    let kind := payload.getD 6 0
    if kind = 0x04 ∨ kind = 0x01 ∨ kind = 0x40 then
      if payload = serializePayload (.deviceEvent kind) then .ok (.deviceEvent kind)
      else .error .unexpectedResponse
    else .error .unknownDeviceEvent
  else if command = 0x07 then .error .notImplemented
  else if command = 0x08 then .error .notImplemented
  else if command = 0x0f then
    if payload = serializePayload (.setActiveProfile (payload.getD 6 0)) then
      .ok (.setActiveProfile (payload.getD 6 0))
    else .error .unexpectedResponse
  else if command = 0x0e then
    if payload = serializePayload .requestActiveProfile then .ok .requestActiveProfile
    else if payload = serializePayload (.currentActiveProfile (payload.getD 6 0)) then
      .ok (.currentActiveProfile (payload.getD 6 0))
    else .error .unexpectedResponse
  else .error .unknownCommand

/-- Model of from_payload(payload): asserts the 17-byte length and the
trailing checksum, then dispatches on the command byte. -/
def from_payload (payload : List Nat) : Except ParseError ParsedPayload :=
  if payload.length ≠ 17 then .error .malformedFrame
  else if payload.getD 16 0 ≠ checksum (payload.take 16) then .error .checksumMismatch
  else dispatch_command payload

/-- A variant is well formed when its byte parameters fit in one byte (the
Python bytearray constructor enforces this) and, for a device event, the
kind is one of the three registered event functions. -/
def payloadWellFormed : ParsedPayload → Prop
  | .currentActiveProfile p => p < 256
  | .setActiveProfile p => p < 256
  | .deviceEvent k => k = 0x04 ∨ k = 0x01 ∨ k = 0x40
  | _ => True
/-- State of the abstract transport: the frames the device will deliver to
subsequent read() calls, in order, and the frames written so far. -/
structure WireState where
  incoming : List (List Nat)
  written : List (List Nat)
deriving DecidableEq

/-- State of the PulsarX2V2Mini controller object: the settings mirror
(the Python dict self.settings, modelled as a partial map from address to
byte) and the cached active profile (self.profile, None until read). -/
structure Controller where
  settings : Nat → Option Nat
  profile : Option Nat

/-- Errors of the controller operations. The source raises ValueError or
KeyError for invalid write spans, AssertionError when the device reports
off or when an echo check fails, and ValueError from int_to_bool; a read
from an exhausted modelled stream is transportClosed (the real transport
would block). -/
inductive CtlError
  | invalidWriteSpan
  | deviceOff
  | valueError
  | unexpectedResponse
  | transportClosed
  | structError
deriving DecidableEq

/-- Model of bool_to_int(value): 0 is False, 1 is True, anything else
raises ValueError (modelled as none). Despite its name the source function
converts int to bool. -/
def bool_to_int (value : Nat) : Option Bool :=
  if value = 0 then some false
  else if value = 1 then some true
  else none

/-- Model of int_to_bool(value), identical in body to bool_to_int. -/
def int_to_bool (value : Nat) : Option Bool :=
  if value = 0 then some false
  else if value = 1 then some true
  else none

/-- Model of the PowerDetails dataclass. -/
structure PowerDetails where
  battery_percentage : Nat
  battery_millivoltage : Nat
  power_connected : Bool
deriving DecidableEq

/-- Model of parse_power_details(data): battery percentage from byte 6, the
connected flag from byte 7 through bool_to_int, and the millivoltage as the
big-endian 16-bit value at bytes 8-9 (struct.unpack of data[8:10] needs at
least 10 bytes). -/
def parse_power_details (data : List Nat) : Except CtlError PowerDetails :=
  if data.length < 10 then .error .structError
  else
    match bool_to_int (data.getD 7 0) with
    | none => .error .valueError
    | some b => .ok ⟨data.getD 6 0, 256 * data.getD 8 0 + data.getD 9 0, b⟩

/-- The discard loop shared by get_power and is_on: read frames until one
has the wanted command byte (byte 1), discarding the rest; none when the
modelled stream runs out. -/
def readUntilCommand (cmd : Nat) : List (List Nat) → Option (List Nat × List (List Nat))
  | [] => none
  | f :: rest => if f.getD 1 0 = cmd then some (f, rest) else readUntilCommand cmd rest

/-- Model of the is_on property: write the STATUS request, loop reading
until a frame with command byte STATUS (0x03), then int_to_bool(resp[6]). -/
def run_is_on (s : WireState) : Except CtlError Bool × WireState :=
  let s1 : WireState := ⟨s.incoming, s.written ++ [build_payload 0x03 []]⟩
  match readUntilCommand 0x03 s1.incoming with
  | none => (.error .transportClosed, s1)
  | some (resp, rest) =>
    match int_to_bool (resp.getD 6 0) with
    | none => (.error .valueError, ⟨rest, s1.written⟩)
    | some b => (.ok b, ⟨rest, s1.written⟩)

/-- Model of restore(): write the RESTORE frame, read one frame, require it
to echo the request exactly, then clear the settings mirror. The cached
profile field is not touched. -/
def restore (c : Controller) (s : WireState) :
    Except CtlError Unit × Controller × WireState :=
  let payload := build_payload 0x09 []
  let s1 : WireState := ⟨s.incoming, s.written ++ [payload]⟩
  match s1.incoming with
  | [] => (.error .transportClosed, c, s1)
  | resp :: rest =>
    if resp = payload then
      (.ok (), { c with settings := fun _ => none }, ⟨rest, s1.written⟩)
    else (.error .unexpectedResponse, c, ⟨rest, s1.written⟩)

/-- Model of get_power(): write the POWER request, loop reading until a
frame with command byte POWER (0x04), then parse_power_details on it. -/
def get_power (s : WireState) : Except CtlError PowerDetails × WireState :=
  let s1 : WireState := ⟨s.incoming, s.written ++ [build_payload 0x04 []]⟩
  match readUntilCommand 0x04 s1.incoming with
  | none => (.error .transportClosed, s1)
  | some (resp, rest) => (parse_power_details resp, ⟨rest, s1.written⟩)

/-- Smallest key of the address map, min(addresses) in the source (0 when
the map is empty; _mem_set only evaluates it on nonempty maps). -/
def minKey (addresses : List (Nat × Nat)) : Nat :=
  ((addresses.map Prod.fst).min?).getD 0

/-- The kwargs loop of _mem_set: look up each address of the contiguous
range in the map; a missing address raises KeyError in the source,
modelled as none. -/
def lookupRange (addresses : List (Nat × Nat)) : List Nat → Option (List Nat)
  | [] => some []
  | a :: rest =>
    match List.lookup a addresses, lookupRange addresses rest with
    | some v, some vs => some (v :: vs)
    | _, _ => none

/-- Python dict.update(addresses) on the settings mirror. -/
def dictUpdate (settings : Nat → Option Nat) (addresses : List (Nat × Nat)) :
    Nat → Option Nat :=
  fun a =>
    match List.lookup a addresses with
    | some v => some v
    | none => settings a

/-- Model of _mem_set(addresses). The address map is an association list
with distinct keys (a Python dict). In source order: the size check
(ValueError), min(addresses), the kwargs lookups over the contiguous range
(KeyError), building the MEM_SET frame, the assert on is_on
(AssertionError when the device is off), the write, one read of the
response, and dict.update of the mirror. Both the size failure and a
missing-address failure are reported as invalidWriteSpan. -/
def mem_set (addresses : List (Nat × Nat)) (c : Controller) (s : WireState) :
    Except CtlError Unit × Controller × WireState :=
  if ¬(1 ≤ addresses.length ∧ addresses.length ≤ 10) then
    (.error .invalidWriteSpan, c, s)
  else
    match lookupRange addresses (List.range' (minKey addresses) addresses.length) with
    | none => (.error .invalidWriteSpan, c, s)
    | some values =>
      let payload :=
        build_payload 0x07 ([0, 0, minKey addresses, addresses.length] ++ values)
      match run_is_on s with
      | (.error e, s1) => (.error e, c, s1)
      | (.ok b, s1) =>
        if b then
          let s2 : WireState := ⟨s1.incoming, s1.written ++ [payload]⟩
          match s2.incoming with
          | [] => (.error .transportClosed, c, s2)
          | _ :: rest =>
            (.ok (), { c with settings := dictUpdate c.settings addresses },
              ⟨rest, s2.written⟩)
        else (.error .deviceOff, c, s1)

/-- Settings-space address of the LED brightness byte and its checksum. -/
def ADDR_LED_BRIGHTNESS : Nat := 0x4e

/-- Checksum address paired with ADDR_LED_BRIGHTNESS. -/
def ADDR_LED_BRIGHTNESS_CHECKSUM : Nat := 0x4f

/-- Lower bound of the led_brightness range check. -/
def LED_BRIGHTNESS_MIN : Nat := 0x00

/-- Upper bound of the led_brightness range check. -/
def LED_BRIGHTNESS_MAX : Nat := 0xff

/-- Model of the led_brightness setter exactly as written in the source:
it raises ValueError when LED_BRIGHTNESS_MIN <= value <= LED_BRIGHTNESS_MAX
(the condition is inverted relative to every other setter, which raises
when the value is NOT in range), and otherwise delegates to _mem_set with
the value and checksum pair. The value is modelled as a natural number.
On the delegated (out-of-range) path the source raises ValueError inside
build_payload's bytearray before touching the transport; since that
byte-range failure is not modelled, this function is only evaluated on
in-range values, where the embedding is exact. -/
def led_brightness_set (value : Nat) (c : Controller) (s : WireState) :
    Except CtlError Unit × Controller × WireState :=
  if LED_BRIGHTNESS_MIN ≤ value ∧ value ≤ LED_BRIGHTNESS_MAX then
    (.error .valueError, c, s)
  else
    mem_set [(ADDR_LED_BRIGHTNESS, value),
      (ADDR_LED_BRIGHTNESS_CHECKSUM, checksum [value])] c s

/-- The keys of an address map form a contiguous block starting at the
minimum address: an address is a key exactly when it lies in the half-open
interval of length len(addresses) starting at min(addresses). -/
def contiguousFromMin (addresses : List (Nat × Nat)) : Prop :=
  ∀ a, a ∈ addresses.map Prod.fst ↔
    (minKey addresses ≤ a ∧ a < minKey addresses + addresses.length)

/-- A fresh controller: empty settings mirror, no cached profile. -/
def demoCtl : Controller := ⟨fun _ => none, none⟩

/-- A transport with nothing to read and nothing written. -/
def demoWire : WireState := ⟨[], []⟩

/-- A controller whose profile cache holds profile 2. -/
def cachedCtl : Controller := ⟨fun _ => none, some 2⟩

/-- A transport whose next frame is the exact echo of the RESTORE request. -/
def restoreEchoWire : WireState := ⟨[build_payload 0x09 []], []⟩

/-- A STATUS reply frame whose byte 6 is 0: the device reports off. -/
def statusOffFrame : List Nat :=
  [0x08, 0x03, 0, 0, 0, 0, 0, 0, 0, 0, 0, 0, 0, 0, 0, 0, 0]

/-- A STATUS reply frame whose byte 6 is 1: the device reports on. -/
def statusOnFrame : List Nat :=
  [0x08, 0x03, 0, 0, 0, 0, 1, 0, 0, 0, 0, 0, 0, 0, 0, 0, 0]

/-- A transport that answers the status query with the off frame. -/
def offWire : WireState := ⟨[statusOffFrame], []⟩

/-- A transport that answers the status query with the on frame and then
delivers one further frame as the MEM_SET response. -/
def onWire : WireState := ⟨[statusOnFrame, []], []⟩

/-- A POWER reply frame: battery 90 percent at byte 6, connected flag 1 at
byte 7, millivoltage bytes 0x10 and 0x2c at bytes 8-9. -/
def powerFrame : List Nat :=
  [0x08, 0x04, 0, 0, 0, 0, 90, 1, 0x10, 0x2c, 0, 0, 0, 0, 0, 0, 0]

/-- An asynchronous DEVICE_EVENT frame (command byte 0x0a). -/
def eventFrame : List Nat :=
  [0x08, 0x0a, 0, 0, 0, 0x0a, 4, 0, 0, 0, 0, 0, 0, 0, 0, 0, 0x35]

/-- An 11-entry address map (one entry beyond the permitted 10). -/
def span11 : List (Nat × Nat) :=
  [(0, 0), (1, 0), (2, 0), (3, 0), (4, 0), (5, 0), (6, 0), (7, 0), (8, 0),
    (9, 0), (10, 0)]

/-- A non-contiguous two-entry address map: keys 0 and 5. -/
def gapMap : List (Nat × Nat) := [(0, 1), (5, 2)]

example : dpi_int_to_raw 50 = .ok [0, 0, 0] := rfl
example : dpi_int_to_raw 12850 = .ok [0, 0, 68] := rfl
example : dpi_raw_to_int [0, 0, 68] = .ok 12850 := rfl
example : dpi_raw_to_int [255, 255, 204] = .ok 51200 := rfl

/-- Helper for the round-trip proof: decoding the encoder's output shape.
The scale factor produced by a valid encode is at most 2 (26000/50 - 1 =
519 < 3 * 256). -/
theorem dpi_raw_to_int_shape (f r : Nat) (hf : f ≤ 2) :
    dpi_raw_to_int [r, r, f <<< 2 ||| f <<< 6] =
      .ok ((r + 1) * 50 + f * 12800) := by
  have hf3 : f = 0 ∨ f = 1 ∨ f = 2 := by omega
  rcases hf3 with rfl | rfl | rfl <;> (simp [dpi_raw_to_int]; try rfl)

/-- C2: for every DPI value d that is a multiple of 50 with 50 ≤ d ≤ 26000,
encoding with dpi_int_to_raw and then decoding with dpi_raw_to_int gives
back d. -/
theorem dpi_encode_decode_roundtrip (d : Nat) (h1 : 50 ≤ d) (h2 : d ≤ 26000)
    (h3 : d % 50 = 0) :
    (dpi_int_to_raw d).bind dpi_raw_to_int = Except.ok d := by
  have henc : dpi_int_to_raw d =
      .ok [(d / 50 - 1) % 256, (d / 50 - 1) % 256,
        ((d / 50 - 1) / 256) <<< 2 ||| ((d / 50 - 1) / 256) <<< 6] := by
    unfold dpi_int_to_raw
    rw [if_neg (by omega), if_neg (by omega)]
  rw [henc]
  show dpi_raw_to_int _ = Except.ok d
  rw [dpi_raw_to_int_shape ((d / 50 - 1) / 256) ((d / 50 - 1) % 256) (by omega)]
  congr 1
  omega

/-- C2 witness: the round trip at the concrete value 12850. -/
theorem dpi_encode_decode_roundtrip_witness :
    (dpi_int_to_raw 12850).bind dpi_raw_to_int = Except.ok 12850 :=
  dpi_encode_decode_roundtrip 12850 (by decide) (by decide) (by decide)

/-- C7: dpi_int_to_raw rejects every value below 50 or above 26000 with the
out-of-range error, rejects every in-range non-multiple of 50 with the
not-a-multiple error, succeeds on every multiple of 50 in [50, 26000], and
in particular encode(50) = [0,0,0], encode(26000) succeeds, encode(49)
fails out of range and encode(75) fails not-a-multiple. -/
theorem dpi_int_to_raw_domain :
    (∀ d : Nat, d < 50 → dpi_int_to_raw d = .error .outOfRange) ∧
    (∀ d : Nat, 26000 < d → dpi_int_to_raw d = .error .outOfRange) ∧
    (∀ d : Nat, 50 ≤ d → d ≤ 26000 → d % 50 ≠ 0 →
      dpi_int_to_raw d = .error .notAMultiple) ∧
    (∀ d : Nat, 50 ≤ d → d ≤ 26000 → d % 50 = 0 →
      ∃ raw, dpi_int_to_raw d = .ok raw) ∧
    dpi_int_to_raw 50 = .ok [0x00, 0x00, 0x00] ∧
    (∃ raw, dpi_int_to_raw 26000 = .ok raw) ∧
    dpi_int_to_raw 49 = .error .outOfRange ∧
    dpi_int_to_raw 75 = .error .notAMultiple := by
  refine ⟨?_, ?_, ?_, ?_, rfl, ⟨_, rfl⟩, rfl, rfl⟩
  · intro d hd
    unfold dpi_int_to_raw
    rw [if_pos (by omega)]
  · intro d hd
    unfold dpi_int_to_raw
    rw [if_pos (by omega)]
  · intro d hd1 hd2 hd3
    unfold dpi_int_to_raw
    rw [if_neg (by omega), if_pos hd3]
  · intro d hd1 hd2 hd3
    refine ⟨[(d / 50 - 1) % 256, (d / 50 - 1) % 256,
      ((d / 50 - 1) / 256) <<< 2 ||| ((d / 50 - 1) / 256) <<< 6], ?_⟩
    unfold dpi_int_to_raw
    rw [if_neg (by omega), if_neg (by omega)]

/-- C7 witness: the universally quantified parts of dpi_int_to_raw_domain
instantiated at concrete inputs. -/
theorem dpi_int_to_raw_domain_witness :
    dpi_int_to_raw 10 = .error .outOfRange ∧
    dpi_int_to_raw 26050 = .error .outOfRange ∧
    dpi_int_to_raw 120 = .error .notAMultiple ∧
    (∃ raw, dpi_int_to_raw 600 = .ok raw) :=
  ⟨dpi_int_to_raw_domain.1 10 (by decide),
   dpi_int_to_raw_domain.2.1 26050 (by decide),
   dpi_int_to_raw_domain.2.2.1 120 (by decide) (by decide) (by decide),
   dpi_int_to_raw_domain.2.2.2.1 600 (by decide) (by decide) (by decide)⟩

/-- C10: dpi_raw_to_int does not enforce the 26000 upper bound: it accepts
[0xff, 0xff, 0xcc] and returns 51200, which exceeds 26000, so re-encoding
the decoded value fails with the out-of-range error instead of reproducing
the raw bytes. -/
theorem dpi_raw_to_int_no_upper_bound :
    dpi_raw_to_int [0xff, 0xff, 0xcc] = .ok 51200 ∧
    26000 < 51200 ∧
    dpi_int_to_raw 51200 = .error .outOfRange :=
  ⟨rfl, by decide, rfl⟩

example : from_payload (serializePayload .restorePayload) = .ok .restorePayload := rfl
example : from_payload (serializePayload (.deviceEvent 0x40)) = .ok (.deviceEvent 0x40) := rfl

/-- C8: for every well-formed payload variant, parsing its serialized frame
with the generic parser returns an equal variant; in particular
SetActiveProfile with profile 3 serializes to
[0x08, 0x0f, 0, 0, 0, 1, 3, 0, 0, 0, 0, 0, 0, 0, 0, 0, 0x3a], whose last
byte is the checksum of the first 16, and parses back to an equal
SetActiveProfile value with profile 3. -/
theorem payload_roundtrip :
    (∀ v, payloadWellFormed v → from_payload (serializePayload v) = .ok v) ∧
    serializePayload (.setActiveProfile 3) =
      [0x08, 0x0f, 0, 0, 0, 1, 3, 0, 0, 0, 0, 0, 0, 0, 0, 0, 0x3a] ∧
    0x3a = checksum [0x08, 0x0f, 0, 0, 0, 1, 3, 0, 0, 0, 0, 0, 0, 0, 0, 0] ∧
    from_payload [0x08, 0x0f, 0, 0, 0, 1, 3, 0, 0, 0, 0, 0, 0, 0, 0, 0, 0x3a] =
      .ok (.setActiveProfile 3) := by
  refine ⟨?_, rfl, rfl, rfl⟩
  intro v hv
  cases v with
  | restorePayload => rfl
  | requestActiveProfile => rfl
  | requestPowerDetails => rfl
  | deviceEvent k =>
    rcases hv with rfl | rfl | rfl <;> rfl
  | currentActiveProfile p =>
    simp [from_payload, dispatch_command, serializePayload, build_payload,
      pad14, checksum]
  | setActiveProfile p =>
    simp [from_payload, dispatch_command, serializePayload, build_payload,
      pad14, checksum]

/-- C8 witness: the round trip at the concrete variant CurrentActiveProfile
with profile 5. -/
theorem payload_roundtrip_witness :
    from_payload (serializePayload (.currentActiveProfile 5)) =
      .ok (.currentActiveProfile 5) :=
  payload_roundtrip.1 (.currentActiveProfile 5) (by show (5 : Nat) < 256; decide)

/-- Padded parameters of an in-range call have exactly 14 bytes. -/
theorem pad14_length_of_le (params : List Nat) (h : params.length ≤ 14) :
    (pad14 params).length = 14 := by
  simp only [pad14, List.length_append, List.length_replicate]
  omega

/-- Frames built from at most 14 parameter bytes are exactly 17 bytes. -/
theorem build_payload_length (cmd : Nat) (params : List Nat)
    (h : params.length ≤ 14) : (build_payload cmd params).length = 17 := by
  show ((0x08 :: cmd :: pad14 params) ++ [checksum (0x08 :: cmd :: pad14 params)]).length = 17
  simp [pad14_length_of_le params h]

/-- The first 16 bytes of a built frame are its body. -/
theorem build_payload_take16 (cmd : Nat) (params : List Nat)
    (h : params.length ≤ 14) :
    (build_payload cmd params).take 16 = 0x08 :: cmd :: pad14 params := by
  have hl : (0x08 :: cmd :: pad14 params).length = 16 := by
    simp [pad14_length_of_le params h]
  show ((0x08 :: cmd :: pad14 params) ++ [checksum (0x08 :: cmd :: pad14 params)]).take 16 = _
  rw [← hl, List.take_left]

/-- Byte 16 of a built frame is the checksum of its body. -/
theorem build_payload_getD16 (cmd : Nat) (params : List Nat)
    (h : params.length ≤ 14) :
    (build_payload cmd params).getD 16 0 = checksum (0x08 :: cmd :: pad14 params) := by
  have hl : (0x08 :: cmd :: pad14 params).length = 16 := by
    simp [pad14_length_of_le params h]
  show ((0x08 :: cmd :: pad14 params) ++ [checksum (0x08 :: cmd :: pad14 params)]).getD 16 0 = _
  rw [List.getD_append_right _ _ _ _ (by omega), hl]
  rfl

set_option maxHeartbeats 1600000 in
/-- The command dispatcher itself never produces the two validation errors;
those only come from the length and checksum gates of from_payload. -/
theorem dispatch_command_ne_validation (payload : List Nat) :
    dispatch_command payload ≠ .error .malformedFrame ∧
    dispatch_command payload ≠ .error .checksumMismatch := by
  constructor <;> intro hcontra <;>
    (simp only [dispatch_command] at hcontra; repeat' split at hcontra) <;>
    simp at hcontra

/-- C9: checksum of any byte sequence is (0x55 - sum) mod 256 with 8-bit
wraparound, and every frame built from a command and at most 14 parameter
bytes has exactly 17 bytes, ends in the checksum of its first 16 bytes, and
passes the length and checksum validation of from_payload. -/
theorem checksum_and_frame_validation :
    (∀ values : List Nat,
      (checksum values : Int) = ((0x55 : Int) - (values.sum : Int)) % 256) ∧
    (∀ cmd : Nat, ∀ params : List Nat, params.length ≤ 14 →
      (build_payload cmd params).length = 17 ∧
      (build_payload cmd params).getD 16 0 =
        checksum ((build_payload cmd params).take 16) ∧
      from_payload (build_payload cmd params) ≠ .error .malformedFrame ∧
      from_payload (build_payload cmd params) ≠ .error .checksumMismatch) := by
  constructor
  · intro values
    exact Int.toNat_of_nonneg (Int.emod_nonneg _ (by norm_num))
  · intro cmd params h
    have hlen := build_payload_length cmd params h
    have hg : (build_payload cmd params).getD 16 0 =
        checksum ((build_payload cmd params).take 16) := by
      rw [build_payload_take16 cmd params h, build_payload_getD16 cmd params h]
    refine ⟨hlen, hg, ?_, ?_⟩
    · unfold from_payload
      rw [if_neg (not_not_intro hlen), if_neg (not_not_intro hg)]
      exact (dispatch_command_ne_validation _).1
    · unfold from_payload
      rw [if_neg (not_not_intro hlen), if_neg (not_not_intro hg)]
      exact (dispatch_command_ne_validation _).2

/-- C9 witness: the frame properties at the concrete STATUS request frame. -/
theorem checksum_and_frame_validation_witness :
    (build_payload 0x03 []).length = 17 ∧
    (build_payload 0x03 []).getD 16 0 =
      checksum ((build_payload 0x03 []).take 16) ∧
    from_payload (build_payload 0x03 []) ≠ .error .malformedFrame ∧
    from_payload (build_payload 0x03 []) ≠ .error .checksumMismatch :=
  checksum_and_frame_validation.2 0x03 [] (by decide)

/-- C1 counterexample: with profile 2 cached and the transport echoing the
RESTORE request exactly, restore() succeeds but the cached active profile
is NOT cleared to None; it still holds profile 2. -/
theorem restore_keeps_profile_cache :
    (restore cachedCtl restoreEchoWire).1 = .ok () ∧
    (restore cachedCtl restoreEchoWire).2.1.profile = some 2 ∧
    (restore cachedCtl restoreEchoWire).2.1.profile ≠ none :=
  ⟨rfl, rfl, fun hcontra =>
    Option.noConfusion
      ((show (some 2 : Option Nat) =
          (restore cachedCtl restoreEchoWire).2.1.profile from rfl).trans hcontra)⟩

/-- C1 (amended): for every controller state in which the transport's
response to the Restore request echoes the request bytes exactly, restore()
succeeds and afterwards the settings mirror is empty, while the cached
active profile is left unchanged rather than invalidated. -/
theorem restore_clears_settings (c : Controller) (s : WireState)
    (rest : List (List Nat))
    (h : s.incoming = build_payload 0x09 [] :: rest) :
    restore c s =
      (.ok (), ⟨fun _ => none, c.profile⟩,
        ⟨rest, s.written ++ [build_payload 0x09 []]⟩) := by
  simp only [restore]
  rw [h]
  simp

/-- C1 witness: the amended restore behaviour at a concrete state. -/
theorem restore_clears_settings_witness :
    restore cachedCtl restoreEchoWire =
      (.ok (), ⟨fun _ => none, some 2⟩, ⟨[], [build_payload 0x09 []]⟩) :=
  restore_clears_settings cachedCtl restoreEchoWire [] rfl

/-- C3: the led_brightness setter's range check is inverted in the source:
every in-range value is rejected with the range ValueError, although the
evident intent (the pattern of every other setter, with a not in front of
the range test) is to accept it and delegate it to _mem_set. Evaluated at
the failing inputs 0x00, 128 and 0xff - all inside [0x00, 0xff] - the
setter returns the range error, writes nothing to the transport and leaves
the settings mirror untouched. (Out-of-range values pass this inverted
gate in the source only to raise ValueError inside build_payload's
bytearray before any transport interaction; that path lies outside the
byte-valued domain of the embedding and is not asserted here.) -/
theorem led_brightness_range_check_inverted :
    led_brightness_set 0x00 demoCtl demoWire =
      (.error .valueError, demoCtl, demoWire) ∧
    led_brightness_set 128 demoCtl demoWire =
      (.error .valueError, demoCtl, demoWire) ∧
    led_brightness_set 0xff demoCtl demoWire =
      (.error .valueError, demoCtl, demoWire) :=
  ⟨rfl, rfl, rfl⟩

/-- The discard loop returns the first frame bearing the wanted command
byte, dropping every earlier frame with a different command byte. -/
theorem readUntilCommand_skips (cmd : Nat) (pre : List (List Nat))
    (f : List Nat) (rest : List (List Nat))
    (hpre : ∀ g ∈ pre, g.getD 1 0 ≠ cmd) (hf : f.getD 1 0 = cmd) :
    readUntilCommand cmd (pre ++ f :: rest) = some (f, rest) := by
  induction pre with
  | nil =>
    show readUntilCommand cmd (f :: rest) = some (f, rest)
    unfold readUntilCommand
    rw [if_pos hf]
  | cons g gs ih =>
    have hg : g.getD 1 0 ≠ cmd := hpre g (List.mem_cons_self g gs)
    simp only [List.cons_append, readUntilCommand, if_neg hg]
    exact ih fun x hx => hpre x (List.mem_cons_of_mem g hx)

/-- C6: when the incoming stream consists of finitely many frames whose
command byte differs from POWER followed by a POWER frame, get_power
discards the preceding frames and returns PowerDetails parsed from the
POWER frame: battery percentage from byte 6, the connected flag from
byte 7, and the millivoltage big-endian from bytes 8-9. -/
theorem get_power_discards_interleaved (s : WireState) (pre : List (List Nat))
    (f : List Nat) (rest : List (List Nat))
    (hpre : ∀ g ∈ pre, g.getD 1 0 ≠ 0x04)
    (hs : s.incoming = pre ++ f :: rest)
    (hf : f.getD 1 0 = 0x04)
    (hlen : 10 ≤ f.length)
    (hb7 : f.getD 7 0 < 2) :
    get_power s =
      (.ok ⟨f.getD 6 0, 256 * f.getD 8 0 + f.getD 9 0, f.getD 7 0 == 1⟩,
        ⟨rest, s.written ++ [build_payload 0x04 []]⟩) := by
  have hparse : parse_power_details f =
      .ok ⟨f.getD 6 0, 256 * f.getD 8 0 + f.getD 9 0, f.getD 7 0 == 1⟩ := by
    unfold parse_power_details
    rw [if_neg (by omega)]
    have h7 : f.getD 7 0 = 0 ∨ f.getD 7 0 = 1 := by omega
    rcases h7 with h7 | h7 <;> rw [h7] <;> rfl
  simp only [get_power]
  rw [hs, readUntilCommand_skips 0x04 pre f rest hpre hf]
  show (parse_power_details f,
    (⟨rest, s.written ++ [build_payload 0x04 []]⟩ : WireState)) = _
  rw [hparse]

/-- C6 witness: one DEVICE_EVENT frame followed by a POWER frame; the
event frame is discarded and the POWER frame is parsed. -/
theorem get_power_discards_interleaved_witness :
    get_power ⟨[eventFrame, powerFrame], []⟩ =
      (.ok ⟨90, 4140, true⟩, ⟨[], [build_payload 0x04 []]⟩) :=
  get_power_discards_interleaved ⟨[eventFrame, powerFrame], []⟩ [eventFrame]
    powerFrame [] (by decide) rfl rfl (by decide) (by decide)

/-- dict lookup finds a key exactly when the key occurs in the map. -/
theorem lookup_isSome_iff (a : Nat) (l : List (Nat × Nat)) :
    (List.lookup a l).isSome ↔ a ∈ l.map Prod.fst := by
  induction l with
  | nil => simp [List.lookup]
  | cons p ps ih =>
    obtain ⟨k, v⟩ := p
    by_cases hk : a = k
    · subst hk
      rw [List.lookup_cons, beq_self_eq_true]
      simp
    · rw [List.lookup_cons, beq_eq_false_iff_ne.mpr hk]
      simp [hk, ih]

/-- In a map with distinct keys, lookup returns the value paired with the
key. -/
theorem lookup_eq_some_of_mem_nodup {a v : Nat} {l : List (Nat × Nat)}
    (hnd : (l.map Prod.fst).Nodup) (hmem : (a, v) ∈ l) :
    List.lookup a l = some v := by
  induction l with
  | nil => cases hmem
  | cons p ps ih =>
    obtain ⟨k, w⟩ := p
    have hnd' : (k :: ps.map Prod.fst).Nodup := by simpa using hnd
    obtain ⟨hknotin, hndps⟩ := List.nodup_cons.mp hnd'
    rcases List.mem_cons.mp hmem with heq | htail
    · injection heq with h1 h2
      subst h1
      subst h2
      rw [List.lookup_cons, beq_self_eq_true]
    · have hain : a ∈ ps.map Prod.fst := List.mem_map.mpr ⟨(a, v), htail, rfl⟩
      have hk : a ≠ k := fun hak => hknotin (hak ▸ hain)
      rw [List.lookup_cons, beq_eq_false_iff_ne.mpr hk]
      exact ih hndps htail

/-- The kwargs loop fails exactly when some requested address is missing
from the map. -/
theorem lookupRange_eq_none_iff (addresses : List (Nat × Nat)) (l : List Nat) :
    lookupRange addresses l = none ↔
      ∃ a ∈ l, List.lookup a addresses = none := by
  induction l with
  | nil => simp [lookupRange]
  | cons a rest ih =>
    constructor
    · intro h
      rcases h1 : List.lookup a addresses with _ | v
      · exact ⟨a, List.mem_cons_self a rest, h1⟩
      · rcases h2 : lookupRange addresses rest with _ | vs
        · obtain ⟨x, hx, hlx⟩ := ih.mp h2
          exact ⟨x, List.mem_cons_of_mem a hx, hlx⟩
        · have hsome : lookupRange addresses (a :: rest) = some (v :: vs) := by
            simp only [lookupRange]
            rw [h1, h2]
          rw [hsome] at h
          exact Option.noConfusion h
    · rintro ⟨x, hx, hlx⟩
      rcases List.mem_cons.mp hx with rfl | hx'
      · simp only [lookupRange]
        rw [hlx]
      · have h2 : lookupRange addresses rest = none := ih.mpr ⟨x, hx', hlx⟩
        simp only [lookupRange]
        rw [h2]
        rcases List.lookup a addresses with _ | v <;> rfl

/-- When the keys of the map do not form a contiguous block starting at the
minimum address, the kwargs loop of _mem_set hits a missing address: by
counting, n distinct keys that cover the n-address range starting at the
minimum would be exactly that range. -/
theorem lookupRange_none_of_not_contiguous (addresses : List (Nat × Nat))
    (hnd : (addresses.map Prod.fst).Nodup)
    (hnc : ¬ contiguousFromMin addresses) :
    lookupRange addresses
      (List.range' (minKey addresses) addresses.length) = none := by
  rcases hlr : lookupRange addresses
      (List.range' (minKey addresses) addresses.length) with _ | values
  · rfl
  · exfalso
    apply hnc
    have hall : ∀ a ∈ List.range' (minKey addresses) addresses.length,
        a ∈ addresses.map Prod.fst := by
      intro a ha
      rcases hopt : List.lookup a addresses with _ | v
      · have hnone : lookupRange addresses
            (List.range' (minKey addresses) addresses.length) = none :=
          (lookupRange_eq_none_iff addresses _).mpr ⟨a, ha, hopt⟩
        rw [hnone] at hlr
        exact Option.noConfusion hlr
      · exact (lookup_isSome_iff a addresses).mp (by rw [hopt]; rfl)
    have hsub : (List.range' (minKey addresses) addresses.length).toFinset ⊆
        (addresses.map Prod.fst).toFinset := by
      intro a ha
      exact List.mem_toFinset.mpr (hall a (List.mem_toFinset.mp ha))
    have hcard : (addresses.map Prod.fst).toFinset.card ≤
        (List.range' (minKey addresses) addresses.length).toFinset.card := by
      rw [List.toFinset_card_of_nodup hnd,
        List.toFinset_card_of_nodup (List.nodup_range' _ _), List.length_map,
        List.length_range']
    have heq := Finset.eq_of_subset_of_card_le hsub hcard
    intro a
    constructor
    · intro hmem
      have ha : a ∈ (List.range' (minKey addresses) addresses.length).toFinset := by
        rw [heq]
        exact List.mem_toFinset.mpr hmem
      exact List.mem_range'_1.mp (List.mem_toFinset.mp ha)
    · intro hbound
      have ha : a ∈ (List.range' (minKey addresses) addresses.length).toFinset :=
        List.mem_toFinset.mpr (List.mem_range'_1.mpr hbound)
      rw [heq] at ha
      exact List.mem_toFinset.mp ha

/-- The is_on exchange appends exactly the STATUS request to the written
frames, whatever its outcome. -/
theorem run_is_on_written (s : WireState) :
    (run_is_on s).2.written = s.written ++ [build_payload 0x03 []] := by
  simp only [run_is_on]
  split
  · rfl
  · split <;> rfl

/-- The command byte of a built frame is its second byte. -/
theorem build_payload_getD1 (cmd : Nat) (params : List Nat) :
    (build_payload cmd params).getD 1 0 = cmd := rfl

/-- C4: _mem_set validates its preconditions before any MEM_SET frame is
written. A map whose size is outside 1..10 fails with the invalid-write-span
error with nothing written and the mirror untouched; a map with distinct
keys that do not form a contiguous block from the minimum address likewise
fails with the invalid-write-span error before anything is written; and
when the span is valid but the is_on status query reports false, it fails
with the device-off error, the mirror is unchanged, and the only frame
written is the STATUS request of the query - never a MEM_SET frame. -/
theorem mem_set_preconditions :
    (∀ addresses : List (Nat × Nat), ∀ c : Controller, ∀ s : WireState,
      ¬(1 ≤ addresses.length ∧ addresses.length ≤ 10) →
      mem_set addresses c s = (.error .invalidWriteSpan, c, s)) ∧
    (∀ addresses : List (Nat × Nat), ∀ c : Controller, ∀ s : WireState,
      (addresses.map Prod.fst).Nodup →
      1 ≤ addresses.length → addresses.length ≤ 10 →
      ¬ contiguousFromMin addresses →
      mem_set addresses c s = (.error .invalidWriteSpan, c, s)) ∧
    (∀ addresses : List (Nat × Nat), ∀ c : Controller, ∀ s : WireState,
      ∀ values : List Nat, ∀ s1 : WireState,
      1 ≤ addresses.length → addresses.length ≤ 10 →
      lookupRange addresses
        (List.range' (minKey addresses) addresses.length) = some values →
      run_is_on s = (.ok false, s1) →
      mem_set addresses c s = (.error .deviceOff, c, s1) ∧
      s1.written = s.written ++ [build_payload 0x03 []] ∧
      (∀ fr ∈ s1.written, fr ∉ s.written → fr.getD 1 0 ≠ 0x07)) := by
  refine ⟨?_, ?_, ?_⟩
  · intro addresses c s h
    simp only [mem_set]
    rw [if_pos h]
  · intro addresses c s hnd h1 h2 hnc
    have hlr := lookupRange_none_of_not_contiguous addresses hnd hnc
    simp only [mem_set]
    rw [if_neg (not_not_intro ⟨h1, h2⟩), hlr]
  · intro addresses c s values s1 h1 h2 hlk his
    have hw : s1.written = s.written ++ [build_payload 0x03 []] := by
      have hrw := run_is_on_written s
      rw [his] at hrw
      exact hrw
    refine ⟨?_, hw, ?_⟩
    · simp only [mem_set]
      rw [if_neg (not_not_intro ⟨h1, h2⟩), hlk, his]
      rfl
    · intro fr hin hnot
      rw [hw] at hin
      rcases List.mem_append.mp hin with hmem | hmem
      · exact absurd hmem hnot
      · rw [List.mem_singleton] at hmem
        subst hmem
        decide

/-- C4 witness: the three precondition failures at concrete inputs - an
11-entry map, the non-contiguous map with keys 0 and 5, and a valid span
attempted while the device reports off. -/
theorem mem_set_preconditions_witness :
    mem_set span11 demoCtl demoWire = (.error .invalidWriteSpan, demoCtl, demoWire) ∧
    mem_set gapMap demoCtl demoWire = (.error .invalidWriteSpan, demoCtl, demoWire) ∧
    mem_set [(0, 1), (1, 2)] demoCtl offWire =
      (.error .deviceOff, demoCtl, ⟨[], [build_payload 0x03 []]⟩) := by
  have hnc : ¬ contiguousFromMin gapMap := by
    intro hcontig
    have h5 := (hcontig 5).mp (by decide)
    have hmin : minKey gapMap = 0 := rfl
    have hlen : gapMap.length = 2 := rfl
    rw [hmin, hlen] at h5
    omega
  exact ⟨mem_set_preconditions.1 span11 demoCtl demoWire (by decide),
    mem_set_preconditions.2.1 gapMap demoCtl demoWire (by decide) (by decide)
      (by decide) hnc,
    (mem_set_preconditions.2.2 [(0, 1), (1, 2)] demoCtl offWire [1, 2]
      ⟨[], [build_payload 0x03 []]⟩ (by decide) (by decide) rfl rfl).1⟩

/-- C5: after every successful _mem_set call, the settings mirror equals
its prior value updated with exactly the written address-value pairs: every
written address maps to its written value, every other address keeps its
previous mirror value, and no MEM_GET frame (command byte 0x08) is written
as part of the exchange. -/
theorem mem_set_updates_mirror (addresses : List (Nat × Nat)) (c : Controller)
    (s : WireState) (c' : Controller) (s' : WireState)
    (hnd : (addresses.map Prod.fst).Nodup)
    (h : mem_set addresses c s = (.ok (), c', s')) :
    (∀ a v, (a, v) ∈ addresses → c'.settings a = some v) ∧
    (∀ a, a ∉ addresses.map Prod.fst → c'.settings a = c.settings a) ∧
    (∀ fr ∈ s'.written, fr ∉ s.written → fr.getD 1 0 ≠ 0x08) := by
  simp only [mem_set] at h
  split at h
  · exact absurd h (by simp)
  · split at h
    · exact absurd h (by simp)
    · rename_i values hlk
      split at h
      · exact absurd h (by simp)
      · rename_i b s1 his
        split at h
        · split at h
          · exact absurd h (by simp)
          · rename_i hb fr rest hinc
            rw [Prod.mk.injEq, Prod.mk.injEq] at h
            obtain ⟨-, hc, hs⟩ := h
            subst hc
            subst hs
            have hw : s1.written = s.written ++ [build_payload 0x03 []] := by
              have hrw := run_is_on_written s
              rw [his] at hrw
              exact hrw
            refine ⟨?_, ?_, ?_⟩
            · intro a v hmem
              show dictUpdate c.settings addresses a = some v
              simp only [dictUpdate]
              rw [lookup_eq_some_of_mem_nodup hnd hmem]
            · intro a hna
              show dictUpdate c.settings addresses a = c.settings a
              simp only [dictUpdate]
              rw [Option.not_isSome_iff_eq_none.mp
                (fun hsome => hna ((lookup_isSome_iff a addresses).mp hsome))]
            · intro fr2 hin hnot
              have hin2 : fr2 ∈ (s.written ++ [build_payload 0x03 []]) ++
                  [build_payload 0x07
                    ([0, 0, minKey addresses, addresses.length] ++ values)] := by
                rw [← hw]
                exact hin
              rcases List.mem_append.mp hin2 with hmem | hmem
              · rcases List.mem_append.mp hmem with hmem2 | hmem2
                · exact absurd hmem2 hnot
                · rw [List.mem_singleton] at hmem2
                  subst hmem2
                  decide
              · rw [List.mem_singleton] at hmem
                subst hmem
                rw [build_payload_getD1]
                decide
        · exact absurd h (by simp)

/-- C5 witness: a successful two-byte write at addresses 0 and 1 against a
fresh mirror; the written addresses hold the written values and an
untouched address keeps its prior (absent) value. -/
theorem mem_set_updates_mirror_witness :
    (mem_set [(0, 1), (1, 2)] demoCtl onWire).2.1.settings 0 = some 1 ∧
    (mem_set [(0, 1), (1, 2)] demoCtl onWire).2.1.settings 1 = some 2 ∧
    (mem_set [(0, 1), (1, 2)] demoCtl onWire).2.1.settings 5 =
      demoCtl.settings 5 := by
  have h : mem_set [(0, 1), (1, 2)] demoCtl onWire =
      (.ok (), ⟨dictUpdate demoCtl.settings [(0, 1), (1, 2)], demoCtl.profile⟩,
        ⟨[], [build_payload 0x03 [], build_payload 0x07 [0, 0, 0, 2, 1, 2]]⟩) := rfl
  obtain ⟨h1, h2, h3⟩ :=
    mem_set_updates_mirror [(0, 1), (1, 2)] demoCtl onWire _ _ (by decide) h
  refine ⟨?_, ?_, ?_⟩
  · rw [h]
    exact h1 0 1 (by decide)
  · rw [h]
    exact h1 1 2 (by decide)
  · rw [h]
    exact h2 5 (by decide)

end Pulsar
